import Mathlib

/-!
Verification of the viral-engine-pro video composition core:
the scene timeline builder (`TemplateEngine.generateScenes`,
`buildCompositionConfig`) and the filter-graph command compiler
(`generateFFmpegCommand` and its stage builders), shallowly embedded from
`src/frontend/lib/templates/template-engine.ts` and the compositor /
caption-style modules.  JavaScript numbers are embedded as exact rationals;
JavaScript strings as Lean strings.
-/

namespace ViralEngine

/-! ## JavaScript string primitives used by the source -/

/-- Characters matched by the JavaScript regex class `\s` (the ones relevant
to plain template text). -/
def isWsChar (c : Char) : Bool :=
  c = ' ' || c = '\t' || c = '\n' || c = '\r' || c = Char.ofNat 11 || c = Char.ofNat 12

/-- Fuel-driven scanner for JavaScript `String.split(/\s+/)`: separators are
maximal whitespace runs; a leading (resp. trailing) run contributes a leading
(resp. trailing) empty field.  Fuel is consumed one character at a time, so
fuel = length of the list always suffices and the fuel-exhausted branch is
unreachable from `jsSplitWs`. -/
def splitWsFuel : Nat → List Char → List Char → List (List Char)
  | _, [], acc => [acc.reverse]
  | 0, l, acc => [acc.reverse ++ l]
  | n + 1, c :: cs, acc =>
    if isWsChar c then acc.reverse :: splitWsFuel n (cs.dropWhile isWsChar) []
    else splitWsFuel n cs (c :: acc)

/-- JavaScript `text.split(/\s+/)`. -/
def jsSplitWs (s : String) : List String :=
  (splitWsFuel s.toList.length s.toList []).map fun l => String.mk l

/-- Fuel-driven scanner for JavaScript `script.split('\n\n')`: leftmost,
non-overlapping matches of the two-character separator. -/
def splitScriptFuel : Nat → List Char → List Char → List (List Char)
  | _, [], acc => [acc.reverse]
  | 0, l, acc => [acc.reverse ++ l]
  | n + 1, c :: cs, acc =>
    match c, cs with
    | '\n', '\n' :: rest => acc.reverse :: splitScriptFuel n rest []
    | _, _ => splitScriptFuel n cs (c :: acc)

/-- JavaScript `script.split('\n\n')`. -/
def splitScript (s : String) : List String :=
  (splitScriptFuel s.toList.length s.toList []).map fun l => String.mk l

/-- The apostrophe character (escaped by the caption filter). -/
def quoteChar : Char := Char.ofNat 39

/-- Replace every occurrence of the character `c` by the character list `r`
(the JavaScript `text.replace(/c/g, r)` for a single-character pattern). -/
def replaceChar (c : Char) (r : List Char) : List Char → List Char
  | [] => []
  | x :: xs => (if x = c then r else [x]) ++ replaceChar c r xs

/-- Printing of an (exact-rational) JavaScript number into a command string.
All durations exercised in this development are integers, where this agrees
with JavaScript number printing. -/
def qToStr (q : ℚ) : String :=
  if q.den = 1 then toString q.num else toString q.num ++ "/" ++ toString q.den

/-- Drop one trailing comma if present (the JavaScript
`filter.replace(/,$/, '')`). -/
def stripTrailingComma (s : String) : String :=
  if s.toList.getLast? = some ',' then String.mk s.toList.dropLast else s

/-- JavaScript `Math.max` on two (non-NaN) numbers, written with an explicit
comparison so that it evaluates by kernel reduction; it agrees with `max`
(`jsMax_eq_max` below). -/
def jsMax (a b : ℚ) : ℚ := if a ≤ b then b else a

/-! ## Data model (from `types.ts` and the compositor's local interfaces) -/

structure Resolution where
  width : Nat
  height : Nat
deriving DecidableEq

structure CaptionShadow where
  x : Int
  y : Int
  blur : Int
  color : String
deriving DecidableEq

structure CaptionStyle where
  fontFamily : String
  fontSize : Nat
  fontWeight : Nat
  color : String
  backgroundColor : Option String
  strokeColor : Option String
  strokeWidth : Option Nat
  shadow : Option CaptionShadow
  animation : String
  position : String
  maxWidth : Nat
  padding : Nat
deriving DecidableEq

structure SceneTemplate where
  id : String
  type : String
  duration : Option ℚ
  textTemplate : Option String
  backgroundType : String
  animation : String
  captionStyle : String
  musicTrack : Option String
  effects : Option (List String)
deriving DecidableEq

structure VideoScene where
  id : String
  text : String
  duration : ℚ
  type : String
  animation : String
  backgroundType : String
  captionStyle : String
  musicTrack : Option String
  effects : List String
deriving DecidableEq

/-- Caption payload of a `SceneConfig` (the compositor's inline record). -/
structure SceneCaptions where
  text : String
  style : CaptionStyle
  position : String
  animation : String
deriving DecidableEq

/-- The compositor's `SceneConfig`.  The mutable `backgroundInputIndex` /
`voiceoverInputIndex` fields, assigned in place by `generateFFmpegCommand`,
are modelled by the functions `backgroundInputIndexOf` /
`voiceoverInputIndexOf` below (one compile call owns its own counter, so the
assignment is a pure function of the scene list). -/
structure SceneConfig where
  startTime : ℚ
  endTime : ℚ
  duration : ℚ
  backgroundVideoUrl : String
  voiceoverAudioUrl : String
  captions : Option SceneCaptions
  effects : List String
  transition : String
deriving DecidableEq

structure CompositionConfig where
  resolution : Resolution
  outputFormat : String
  scenes : List SceneConfig
  globalEffects : List String
  musicTrack : Option String
  musicVolume : ℚ
deriving DecidableEq

structure VoiceoverRef where
  sceneId : String
  audioUrl : String
deriving DecidableEq

structure BackgroundRef where
  sceneId : String
  videoUrl : String
deriving DecidableEq

structure CaptionsParams where
  enabled : Bool
  style : String
  position : String
  fontSize : Nat
  fontFamily : String
  animation : String
deriving DecidableEq

structure MusicParams where
  enabled : Bool
  track : String
  volume : ℚ
deriving DecidableEq

structure VideoCompositionParams where
  jobId : String
  scenes : List VideoScene
  voiceovers : List VoiceoverRef
  backgrounds : List BackgroundRef
  captions : CaptionsParams
  music : MusicParams
  transitions : List String
  effects : List String
  outputFormat : String
  resolution : Resolution
deriving DecidableEq

/-! ## Caption style registry (`caption-styles.ts`) -/

def modernStyle : CaptionStyle :=
  { fontFamily := "Montserrat", fontSize := 52, fontWeight := 800,
    color := "#FFFFFF", backgroundColor := some "rgba(0, 0, 0, 0.7)",
    strokeColor := some "#000000", strokeWidth := some 3,
    shadow := some { x := 3, y := 3, blur := 8, color := "rgba(0, 0, 0, 0.8)" },
    animation := "word-by-word", position := "bottom", maxWidth := 900, padding := 20 }

def getCaptionStyle (styleName : String) : CaptionStyle :=
  if styleName = "modern" then modernStyle
  else if styleName = "bold" then
    { fontFamily := "Impact", fontSize := 64, fontWeight := 900,
      color := "#FFFF00", backgroundColor := none,
      strokeColor := some "#000000", strokeWidth := some 6,
      shadow := some { x := 4, y := 4, blur := 10, color := "rgba(0, 0, 0, 1)" },
      animation := "word-by-word", position := "bottom", maxWidth := 950, padding := 15 }
  else if styleName = "minimal" then
    { fontFamily := "Helvetica", fontSize := 44, fontWeight := 600,
      color := "#FFFFFF", backgroundColor := none,
      strokeColor := none, strokeWidth := some 0,
      shadow := some { x := 2, y := 2, blur := 6, color := "rgba(0, 0, 0, 0.5)" },
      animation := "word-by-word", position := "center", maxWidth := 800, padding := 25 }
  else if styleName = "neon" then
    { fontFamily := "Arial Black", fontSize := 56, fontWeight := 900,
      color := "#00FFFF", backgroundColor := none,
      strokeColor := some "#FF00FF", strokeWidth := some 4,
      shadow := some { x := 0, y := 0, blur := 20, color := "rgba(0, 255, 255, 0.8)" },
      animation := "word-by-word", position := "bottom", maxWidth := 900, padding := 20 }
  else if styleName = "retro" then
    { fontFamily := "Courier New", fontSize := 48, fontWeight := 700,
      color := "#FFD700", backgroundColor := some "rgba(139, 69, 19, 0.8)",
      strokeColor := some "#8B4513", strokeWidth := some 3,
      shadow := some { x := 5, y := 5, blur := 0, color := "rgba(0, 0, 0, 1)" },
      animation := "letter-by-letter", position := "center", maxWidth := 850, padding := 30 }
  else if styleName = "handwritten" then
    { fontFamily := "Comic Sans MS", fontSize := 50, fontWeight := 700,
      color := "#333333", backgroundColor := some "rgba(255, 255, 255, 0.9)",
      strokeColor := none, strokeWidth := some 0,
      shadow := some { x := 2, y := 2, blur := 4, color := "rgba(0, 0, 0, 0.3)" },
      animation := "word-by-word", position := "bottom", maxWidth := 880, padding := 25 }
  else if styleName = "comic" then
    { fontFamily := "Bangers", fontSize := 60, fontWeight := 800,
      color := "#FF0000", backgroundColor := none,
      strokeColor := some "#000000", strokeWidth := some 5,
      shadow := some { x := 3, y := 3, blur := 0, color := "rgba(255, 255, 0, 1)" },
      animation := "word-by-word", position := "top", maxWidth := 920, padding := 15 }
  else if styleName = "elegant" then
    { fontFamily := "Playfair Display", fontSize := 46, fontWeight := 600,
      color := "#F5F5DC", backgroundColor := some "rgba(0, 0, 0, 0.6)",
      strokeColor := none, strokeWidth := some 0,
      shadow := some { x := 2, y := 2, blur := 8, color := "rgba(0, 0, 0, 0.7)" },
      animation := "line-by-line", position := "bottom", maxWidth := 850, padding := 30 }
  else if styleName = "grunge" then
    { fontFamily := "Impact", fontSize := 58, fontWeight := 900,
      color := "#CCCCCC", backgroundColor := none,
      strokeColor := some "#000000", strokeWidth := some 4,
      shadow := some { x := 6, y := 6, blur := 2, color := "rgba(0, 0, 0, 0.9)" },
      animation := "word-by-word", position := "bottom", maxWidth := 900, padding := 18 }
  else if styleName = "kawaii" then
    { fontFamily := "Rounded Mplus 1c", fontSize := 54, fontWeight := 800,
      color := "#FF69B4", backgroundColor := none,
      strokeColor := some "#FFFFFF", strokeWidth := some 5,
      shadow := some { x := 3, y := 3, blur := 10, color := "rgba(255, 192, 203, 0.8)" },
      animation := "word-by-word", position := "bottom", maxWidth := 880, padding := 22 }
  else if styleName = "alex-hormozi" then
    { fontFamily := "Arial Black", fontSize := 72, fontWeight := 900,
      color := "#FFFFFF", backgroundColor := some "rgba(0, 0, 0, 0.85)",
      strokeColor := some "#FFD700", strokeWidth := some 4,
      shadow := some { x := 4, y := 4, blur := 12, color := "rgba(0, 0, 0, 1)" },
      animation := "word-by-word", position := "center", maxWidth := 950, padding := 25 }
  else if styleName = "mr-beast" then
    { fontFamily := "Impact", fontSize := 68, fontWeight := 900,
      color := "#FFFF00", backgroundColor := none,
      strokeColor := some "#000000", strokeWidth := some 8,
      shadow := some { x := 5, y := 5, blur := 15, color := "rgba(255, 0, 0, 0.6)" },
      animation := "word-by-word", position := "bottom", maxWidth := 940, padding := 20 }
  else if styleName = "vsauce" then
    { fontFamily := "Roboto", fontSize := 50, fontWeight := 700,
      color := "#FFFFFF", backgroundColor := some "rgba(0, 0, 0, 0.75)",
      strokeColor := none, strokeWidth := some 0,
      shadow := some { x := 3, y := 3, blur := 8, color := "rgba(0, 0, 0, 0.8)" },
      animation := "line-by-line", position := "bottom", maxWidth := 870, padding := 28 }
  else modernStyle

/-! ## Scene timeline builder (`TemplateEngine`) -/

/-- `TemplateEngine.calculateDuration`: average speaking rate 2.5 words per
second plus a 0.5s buffer, 3 second minimum; the word count is the field
count of the JavaScript split on whitespace runs. -/
def calculateDuration (text : String) : ℚ :=
  let words : ℚ := ((jsSplitWs text).length : ℚ)
  let baseDuration := words / (5 / 2) + 1 / 2
  jsMax baseDuration 3

/-- Loop body of `TemplateEngine.generateScenes` for loop index `i`: the
scene text defaults to `""` when script parts run out (`scriptParts[i] ||
''`), and JavaScript `sceneTemplate.duration || calculateDuration(text)`
treats an explicit 0 as falsy, hence the inner test. -/
def sceneFromTemplate (scriptParts : List String) (st : SceneTemplate)
    (i : Nat) : VideoScene :=
  let text := scriptParts.getD i ""
  { id := "scene_" ++ toString i
    text := text
    duration :=
      match st.duration with
      | some d => if d = 0 then calculateDuration text else d
      | none => calculateDuration text
    type := st.type
    animation := st.animation
    backgroundType := st.backgroundType
    captionStyle := st.captionStyle
    musicTrack := st.musicTrack
    effects := st.effects.getD [] }

/-- Scene assembly loop of `TemplateEngine.generateScenes` (index-carrying
recursion mirroring the source's `for` loop). -/
def generateScenesAux (scriptParts : List String) :
    List SceneTemplate → Nat → List VideoScene
  | [], _ => []
  | st :: rest, i =>
    sceneFromTemplate scriptParts st i :: generateScenesAux scriptParts rest (i + 1)

/-- `TemplateEngine.generateScenes`: split the script on blank lines and pair
parts with scene templates positionally, defaulting missing parts to `""`. -/
def generateScenes (templateScenes : List SceneTemplate) (script : String) :
    List VideoScene :=
  generateScenesAux (splitScript script) templateScenes 0

/-! ## Composition builder (`buildCompositionConfig`) -/

def buildSceneConfig (params : VideoCompositionParams) (scene : VideoScene)
    (index : Nat) (currentTimestamp : ℚ) : SceneConfig :=
  let voiceover := params.voiceovers.find? fun v => v.sceneId == scene.id
  let background := params.backgrounds.find? fun b => b.sceneId == scene.id
  { startTime := currentTimestamp
    endTime := currentTimestamp + scene.duration
    duration := scene.duration
    backgroundVideoUrl := (background.map fun b => b.videoUrl).getD ""
    voiceoverAudioUrl := (voiceover.map fun v => v.audioUrl).getD ""
    captions :=
      if params.captions.enabled then
        some { text := scene.text
               style := getCaptionStyle params.captions.style
               position := params.captions.position
               animation := params.captions.animation }
      else none
    effects := scene.effects
    transition := params.transitions.getD index "cut" }

/-- The `forEach` of `buildCompositionConfig`, threading the running
timestamp through the scene list. -/
def buildScenesAux (params : VideoCompositionParams) :
    List VideoScene → Nat → ℚ → List SceneConfig
  | [], _, _ => []
  | scene :: rest, index, t =>
    buildSceneConfig params scene index t ::
      buildScenesAux params rest (index + 1) (t + scene.duration)

def buildCompositionConfig (params : VideoCompositionParams) : CompositionConfig :=
  { resolution := params.resolution
    outputFormat := params.outputFormat
    scenes := buildScenesAux params params.scenes 0 0
    globalEffects := params.effects
    musicTrack := if params.music.enabled then some params.music.track else none
    musicVolume := params.music.volume }

/-! ## Filter-graph command compiler (`generateFFmpegCommand` and helpers) -/

/-- JavaScript truthiness of `scene.voiceoverAudioUrl` (the guard under which
the source pushes a voiceover input and assigns `voiceoverInputIndex`). -/
def hasVoice (s : SceneConfig) : Bool := s.voiceoverAudioUrl != ""

/-- JavaScript truthiness of `config.musicTrack`. -/
def musicOn (c : CompositionConfig) : Bool :=
  match c.musicTrack with
  | some t => t != ""
  | none => false

/-- Stream index assigned to scene `i`'s background input: the first loop of
`generateFFmpegCommand` pushes one `-i` per scene, so the counter equals the
scene position. -/
def backgroundInputIndexOf (_c : CompositionConfig) (i : Nat) : Nat := i

/-- Stream index assigned to scene `i`'s voiceover input by the second loop:
all backgrounds come first, then one input per voiceover-carrying scene in
scene order. -/
def voiceoverInputIndexOf (c : CompositionConfig) (i : Nat) : Nat :=
  c.scenes.length + ((c.scenes.take i).filter hasVoice).length

/-- Stream index assigned to the music input (after all backgrounds and all
voiceovers). -/
def musicInputIndexOf (c : CompositionConfig) : Nat :=
  c.scenes.length + (c.scenes.filter hasVoice).length

/-- The ordered `-i` input list of the generated command. -/
def inputsList (c : CompositionConfig) : List String :=
  (c.scenes.map fun s => "-i \"" ++ s.backgroundVideoUrl ++ "\"")
    ++ ((c.scenes.filter hasVoice).map fun s => "-i \"" ++ s.voiceoverAudioUrl ++ "\"")
    ++ (if musicOn c then ["-i \"" ++ c.musicTrack.getD "" ++ "\""] else [])

/-- Sequential escaping step of `buildCaptionFilter`: replace `'`, then `:`,
then `[`, then `]`, each by its backslash-prefixed form. -/
def escapeCaptionText (text : String) : String :=
  let step1 := replaceChar quoteChar ['\\', quoteChar] text.toList
  let step2 := replaceChar ':' ['\\', ':'] step1
  let step3 := replaceChar '[' ['\\', '['] step2
  let step4 := replaceChar ']' ['\\', ']'] step3
  String.mk step4

/-- Position expression table of `buildCaptionFilter`
(`positions[captions.position] || positions.center`). -/
def captionPosition (pos : String) : String :=
  if pos = "top" then "(w-text_w)/2:h*0.1"
  else if pos = "center" then "(w-text_w)/2:(h-text_h)/2"
  else if pos = "bottom" then "(w-text_w)/2:h*0.85"
  else "(w-text_w)/2:(h-text_h)/2"

/-- `buildCaptionFilter`: drawtext stage for one scene's captions, built by
the same left-to-right string accumulation as the source. -/
def buildCaptionFilter (captions : SceneCaptions) (sceneIndex : Nat) : String :=
  let style := captions.style
  let escapedText := escapeCaptionText captions.text
  let position := captionPosition captions.position
  let filter := "[v" ++ toString sceneIndex ++ "_effects]drawtext="
  let filter := filter ++ "text='" ++ escapedText ++ "':"
  let filter := filter ++ "fontfile=/usr/share/fonts/" ++ style.fontFamily ++ ".ttf:"
  let filter := filter ++ "fontsize=" ++ toString style.fontSize ++ ":"
  let filter := filter ++ "fontcolor=" ++ style.color ++ ":"
  let filter := filter ++ "x=" ++ position ++ ":"
  let filter := filter ++ "borderw=" ++ toString (style.strokeWidth.getD 0) ++ ":"
  let filter := filter ++ "bordercolor=" ++ style.strokeColor.getD "0x000000" ++ ":"
  let filter := filter ++
    (match style.shadow with
     | some sh =>
       "shadowx=" ++ toString sh.x ++ ":" ++ "shadowy=" ++ toString sh.y ++ ":"
         ++ "shadowcolor=" ++ sh.color ++ ":"
     | none => "")
  let filter := filter ++
    (if captions.animation = "word-by-word" then "enable='between(t,0,3)':" else "")
  filter ++ "[v" ++ toString sceneIndex ++ "_caption]"

/-- Per-effect fragment of `buildEffectsFilter`'s `switch` (each known tag
appends its filter text and a trailing comma; unknown tags append nothing). -/
def effectFragment (effect : String) : String :=
  if effect = "vignette" then "vignette=angle=PI/4:mode=forward,"
  else if effect = "chromatic-aberration" then "chromashift=crh=3:cbh=-3,"
  else if effect = "film-grain" then "noise=c0s=20:allf=t,"
  else if effect = "blur" then "boxblur=2:1,"
  else if effect = "sharpen" then "unsharp=5:5:1.0:5:5:0.0,"
  else if effect = "glow" then "gblur=sigma=10,"
  else if effect = "scanlines" then "interlace,"
  else ""

/-- `buildEffectsFilter`: chain the scene's effect tags in listed order onto
the trimmed stream, stripping the final trailing comma. -/
def buildEffectsFilter (effects : List String) (sceneIndex : Nat) : String :=
  let filter := "[v" ++ toString sceneIndex ++ "_trimmed]"
    ++ String.join (effects.map effectFragment)
  stripTrailingComma filter ++ "[v" ++ toString sceneIndex ++ "_effects]"

/-- Per-effect fragment of `buildGlobalEffectsFilter`'s `switch`. -/
def globalEffectFragment (effect : String) : String :=
  if effect = "color-grading" then "eq=contrast=1.1:brightness=0.05:saturation=1.2,"
  else if effect = "film-grain" then "noise=c0s=15:allf=t,"
  else if effect = "vignette" then "vignette=angle=PI/3,"
  else ""

/-- `buildGlobalEffectsFilter`: chain global effect tags onto `[vout]`. -/
def buildGlobalEffectsFilter (effects : List String) : String :=
  stripTrailingComma ("[vout]" ++ String.join (effects.map globalEffectFragment))
    ++ "[vfinal]"

/-- Transition lookup table of `buildTransitionFilter`
(`transitionMap[transition] || transitionMap.fade`); every entry uses the
transition's own `duration` as both `duration` and `offset`. -/
def transitionFragment (transition : String) (duration : ℚ) : String :=
  if transition = "fade" then
    "xfade=transition=fade:duration=" ++ qToStr duration ++ ":offset=" ++ qToStr duration
  else if transition = "wipe" then
    "xfade=transition=wipeleft:duration=" ++ qToStr duration ++ ":offset=" ++ qToStr duration
  else if transition = "slide" then
    "xfade=transition=slideleft:duration=" ++ qToStr duration ++ ":offset=" ++ qToStr duration
  else if transition = "zoom" then
    "xfade=transition=zoomin:duration=" ++ qToStr duration ++ ":offset=" ++ qToStr duration
  else if transition = "spin" then
    "xfade=transition=circleopen:duration=" ++ qToStr duration ++ ":offset=" ++ qToStr duration
  else if transition = "blur" then
    "xfade=transition=fadeblack:duration=" ++ qToStr duration ++ ":offset=" ++ qToStr duration
  else if transition = "glitch" then
    "xfade=transition=pixelize:duration=" ++ qToStr duration ++ ":offset=" ++ qToStr duration
  else
    "xfade=transition=fade:duration=" ++ qToStr duration ++ ":offset=" ++ qToStr duration

/-- `buildTransitionFilter` (the source gives `duration` a default of 0.5;
it is passed explicitly here).  Note: this helper is never invoked by
`generateFFmpegCommand`. -/
def buildTransitionFilter (transition : String) (scene1 scene2 : Nat)
    (duration : ℚ) : String :=
  "[v" ++ toString scene1 ++ "][v" ++ toString scene2 ++ "]"
    ++ transitionFragment transition duration
    ++ "[v" ++ toString scene2 ++ "_trans]"

/-- Per-scene stages pushed by the main `forEach` of `generateFFmpegCommand`:
scale/crop, trim, optional caption stage, optional effects stage, optional
voiceover audio trim. -/
def sceneStages (c : CompositionConfig) (i : Nat) (scene : SceneConfig) :
    List String :=
  [ "[" ++ toString (backgroundInputIndexOf c i) ++ ":v]scale="
      ++ toString c.resolution.width ++ ":" ++ toString c.resolution.height
      ++ ":force_original_aspect_ratio=increase,crop="
      ++ toString c.resolution.width ++ ":" ++ toString c.resolution.height
      ++ "[bg" ++ toString i ++ "]",
    "[bg" ++ toString i ++ "]trim=duration=" ++ qToStr scene.duration
      ++ ",setpts=PTS-STARTPTS[bg" ++ toString i ++ "_trimmed]" ]
  ++ (match scene.captions with
      | some capt => [buildCaptionFilter capt i]
      | none => [])
  ++ (if scene.effects.length > 0 then [buildEffectsFilter scene.effects i] else [])
  ++ (if hasVoice scene then
        [ "[" ++ toString (voiceoverInputIndexOf c i) ++ ":a]atrim=duration="
            ++ qToStr scene.duration ++ ",asetpts=PTS-STARTPTS[audio"
            ++ toString i ++ "]" ]
      else [])

/-- The `audioStreams` accumulator: one `[audio{i}]` label per
voiceover-carrying scene, in scene order. -/
def audioStreams (c : CompositionConfig) : List String :=
  ((c.scenes.enum).filter fun p => hasVoice p.2).map
    fun p => "[audio" ++ toString p.1 ++ "]"

/-- Video concatenation stage: one `[v{i}_final]` label per scene. -/
def videoConcatStage (c : CompositionConfig) : String :=
  String.join ((c.scenes.enum).map fun p => "[v" ++ toString p.1 ++ "_final]")
    ++ "concat=n=" ++ toString c.scenes.length ++ ":v=1:a=0[vout]"

/-- Audio concatenation stage, emitted only when at least one scene carries a
voiceover. -/
def audioConcatStages (c : CompositionConfig) : List String :=
  if (audioStreams c).length > 0 then
    [ String.join (audioStreams c) ++ "concat=n="
        ++ toString (audioStreams c).length ++ ":v=0:a=1[aout]" ]
  else []

/-- Final audio stage: music mix when a music track is configured, otherwise
a bare `acopy` (both consume `[aout]`). -/
def audioFinalStage (c : CompositionConfig) : String :=
  if musicOn c then
    "[aout][" ++ toString (musicInputIndexOf c)
      ++ ":a]amix=inputs=2:duration=first:weights=1 " ++ qToStr c.musicVolume
      ++ "[afinal]"
  else "[aout]acopy[afinal]"

/-- Global effects stage, emitted only when global effects are present. -/
def globalEffectsStages (c : CompositionConfig) : List String :=
  if c.globalEffects.length > 0 then [buildGlobalEffectsFilter c.globalEffects]
  else []

/-- The ordered `filter_complex` stage list of `generateFFmpegCommand`. -/
def filterComplexList (c : CompositionConfig) : List String :=
  ((c.scenes.enum).map fun p => sceneStages c p.1 p.2).flatten
    ++ [videoConcatStage c]
    ++ audioConcatStages c
    ++ [audioFinalStage c]
    ++ globalEffectsStages c

/-- `generateFFmpegCommand`: assemble the final command line. -/
def generateFFmpegCommand (config : CompositionConfig) : String :=
  String.intercalate " "
    (["ffmpeg"] ++ inputsList config
      ++ [ "-filter_complex",
           "\"" ++ String.intercalate ";" (filterComplexList config) ++ "\"",
           "-map", "[vout]", "-map", "[afinal]",
           "-c:v", "libx264", "-preset", "medium", "-crf", "23",
           "-c:a", "aac", "-b:a", "192k",
           "-movflags", "+faststart", "-pix_fmt", "yuv420p",
           "output." ++ config.outputFormat ])

/-! ## Specification-side definitions -/

/-- Number of whitespace-separated words of a text (maximal non-whitespace
runs), the reading used by the specification's duration formula. -/
def specWordCount (s : String) : Nat :=
  ((jsSplitWs s).filter fun t => t != "").length

/-- The characters the caption filter escapes. -/
def isSpecialChar (c : Char) : Bool :=
  c = quoteChar || c = ':' || c = '[' || c = ']'

/-- Character-wise view of the caption escaping: each escaped character is
prefixed with a backslash, every other character is kept unchanged. -/
def escChar (c : Char) : List Char :=
  if isSpecialChar c then ['\\', c] else [c]

/-- Decoder for the caption escaping: a backslash followed by one of the four
escaped characters decodes to that character. -/
def unescapeCaption : List Char → List Char
  | [] => []
  | [c] => if c = '\\' then ['\\'] else [c]
  | c :: d :: t2 =>
    if c = '\\' then
      if isSpecialChar d then d :: unescapeCaption t2
      else c :: unescapeCaption (d :: t2)
    else c :: unescapeCaption (d :: t2)

/-- Everything `buildCaptionFilter` emits after the escaped caption text. -/
def captionTail (captions : SceneCaptions) (sceneIndex : Nat) : String :=
  let style := captions.style
  "':" ++ "fontfile=/usr/share/fonts/" ++ style.fontFamily ++ ".ttf:"
    ++ "fontsize=" ++ toString style.fontSize ++ ":"
    ++ "fontcolor=" ++ style.color ++ ":"
    ++ "x=" ++ captionPosition captions.position ++ ":"
    ++ "borderw=" ++ toString (style.strokeWidth.getD 0) ++ ":"
    ++ "bordercolor=" ++ style.strokeColor.getD "0x000000" ++ ":"
    ++ (match style.shadow with
        | some sh =>
          "shadowx=" ++ toString sh.x ++ ":" ++ "shadowy=" ++ toString sh.y
            ++ ":" ++ "shadowcolor=" ++ sh.color ++ ":"
        | none => "")
    ++ (if captions.animation = "word-by-word" then "enable='between(t,0,3)':" else "")
    ++ "[v" ++ toString sceneIndex ++ "_caption]"

/-- Replace one scene's transition by the no-op `"cut"` value. -/
def stripT (s : SceneConfig) : SceneConfig := { s with transition := "cut" }

/-- Replace every scene's transition by the no-op `"cut"` value. -/
def scrubTransitions (c : CompositionConfig) : CompositionConfig :=
  { c with scenes := c.scenes.map stripT }

/-- A stage string defines the stream label `l` exactly when it ends in
`[l]` (every stage emitted by this compiler ends in its output label). -/
def definesLabel (stage label : String) : Bool :=
  ("[" ++ label ++ "]").toList.isSuffixOf stage.toList

/-- Whether the character list begins with the given pattern. -/
def startsWithSeq : List Char → List Char → Bool
  | [], _ => true
  | _ :: _, [] => false
  | p :: ps, x :: xs => p = x && startsWithSeq ps xs

/-- Whether the pattern occurs anywhere in the character list. -/
def containsSeq (pat : List Char) : List Char → Bool
  | [] => pat.isEmpty
  | c :: cs => startsWithSeq pat (c :: cs) || containsSeq pat cs

/-- Default element used with `List.getD` on scene lists. -/
def defaultVideoScene : VideoScene :=
  { id := "", text := "", duration := 0, type := "", animation := "",
    backgroundType := "", captionStyle := "", musicTrack := none, effects := [] }

/-- Default element used with `List.getD` on scene-config lists. -/
def defaultSceneConfig : SceneConfig :=
  { startTime := 0, endTime := 0, duration := 0, backgroundVideoUrl := "",
    voiceoverAudioUrl := "", captions := none, effects := [], transition := "cut" }

/-! ## Concrete fixtures for counterexamples and witnesses -/

/-- A plain video scene fixture. -/
def mkVScene (id : String) (d : ℚ) : VideoScene :=
  { id := id, text := "", duration := d, type := "main", animation := "none",
    backgroundType := "gradient", captionStyle := "modern", musicTrack := none,
    effects := [] }

/-- A plain scene-template fixture. -/
def mkTemplate (id : String) (d : Option ℚ) : SceneTemplate :=
  { id := id, type := "main", duration := d, textTemplate := none,
    backgroundType := "gradient", animation := "none", captionStyle := "modern",
    musicTrack := none, effects := none }

/-- A plain scene-config fixture. -/
def mkSceneCfg (bg vo : String) (t0 t1 d : ℚ) (tr : String) : SceneConfig :=
  { startTime := t0, endTime := t1, duration := d,
    backgroundVideoUrl := bg, voiceoverAudioUrl := vo, captions := none,
    effects := [], transition := tr }

/-- A composition-config fixture with no captions, effects or music. -/
def mkConfig (scenes : List SceneConfig) : CompositionConfig :=
  { resolution := { width := 1080, height := 1920 }, outputFormat := "mp4",
    scenes := scenes, globalEffects := [], musicTrack := none,
    musicVolume := 3 / 10 }

/-- C2 failing input: one scene, no voiceover, no captions, no effects, no
music. -/
def c2Config : CompositionConfig :=
  mkConfig [mkSceneCfg "bg.mp4" "" 0 5 5 "cut"]

/-- C1 witness input: three scenes of durations 5, 8 and 4 seconds. -/
def c1Params : VideoCompositionParams :=
  { jobId := "job", scenes := [mkVScene "s0" 5, mkVScene "s1" 8, mkVScene "s2" 4],
    voiceovers := [], backgrounds := [],
    captions := { enabled := false, style := "modern", position := "bottom",
                  fontSize := 48, fontFamily := "Montserrat",
                  animation := "word-by-word" },
    music := { enabled := false, track := "", volume := 3 / 10 },
    transitions := [], effects := [], outputFormat := "mp4",
    resolution := { width := 1080, height := 1920 } }

/-- C3 witness input: two scenes, the second carrying a voiceover, plus a
music track. -/
def c3Config : CompositionConfig :=
  { resolution := { width := 1080, height := 1920 }, outputFormat := "mp4",
    scenes := [mkSceneCfg "bg0.mp4" "" 0 5 5 "cut",
               mkSceneCfg "bg1.mp4" "vo1.mp3" 5 9 4 "cut"],
    globalEffects := [], musicTrack := some "track.mp3", musicVolume := 3 / 10 }

/-- C4 counterexample text: seven words preceded by one space. -/
def c4Text : String := " a b c d e f g"

/-- C4 fixtures: a template with no explicit duration. -/
def c4Template : SceneTemplate := mkTemplate "t0" none

/-- C5 counterexample input: three scenes (5s, 8s, 4s) with a fade
transition requested after the second scene. -/
def c5FadeConfig : CompositionConfig :=
  mkConfig [mkSceneCfg "bg0.mp4" "" 0 5 5 "cut",
            mkSceneCfg "bg1.mp4" "" 5 13 8 "fade",
            mkSceneCfg "bg2.mp4" "" 13 17 4 "cut"]

/-- C5 comparison input: identical to `c5FadeConfig` except that every
transition is the no-op `"cut"`. -/
def c5CutConfig : CompositionConfig :=
  mkConfig [mkSceneCfg "bg0.mp4" "" 0 5 5 "cut",
            mkSceneCfg "bg1.mp4" "" 5 13 8 "cut",
            mkSceneCfg "bg2.mp4" "" 13 17 4 "cut"]

/-- C6 counterexample input: two scenes, only the first carrying a
voiceover. -/
def c6Config : CompositionConfig :=
  mkConfig [mkSceneCfg "bg0.mp4" "vo0.mp3" 0 5 5 "cut",
            mkSceneCfg "bg1.mp4" "" 5 9 4 "cut"]

/-- C8 counterexample input: a single scene whose mandatory background
reference is missing (empty URL). -/
def c8Config : CompositionConfig :=
  mkConfig [mkSceneCfg "" "" 0 5 5 "cut"]

/-- C9 counterexample input: two scene templates. -/
def c9TemplateA : SceneTemplate := mkTemplate "a" (some 4)

/-- Second C9 scene template. -/
def c9TemplateB : SceneTemplate := mkTemplate "b" (some 6)

/-! ## Basic lemmas -/

theorem jsMax_eq_max (a b : ℚ) : jsMax a b = max a b := by
  unfold jsMax
  rcases le_total a b with h | h
  · simp [h, max_eq_right h]
  · by_cases h2 : a ≤ b
    · simp [h2, max_eq_right h2]
    · simp [h2, max_eq_left (le_of_not_le h2)]

/-! ## C10 -/

/-- C10: scene effect tags are applied strictly in listed order, and the
application is not commutative: `buildEffectsFilter` on `["blur",
"sharpen"]` chains blur first, on `["sharpen", "blur"]` sharpen first, and
the two compiled stage strings differ. -/
theorem c10_effects_noncommutative :
    buildEffectsFilter ["blur", "sharpen"] 0
        = "[v0_trimmed]boxblur=2:1,unsharp=5:5:1.0:5:5:0.0[v0_effects]"
      ∧ buildEffectsFilter ["sharpen", "blur"] 0
        = "[v0_trimmed]unsharp=5:5:1.0:5:5:0.0,boxblur=2:1[v0_effects]"
      ∧ buildEffectsFilter ["blur", "sharpen"] 0
          ≠ buildEffectsFilter ["sharpen", "blur"] 0 := by
  refine ⟨rfl, rfl, ?_⟩
  decide

/-! ## C2 -/

/-- C2 (refuted on the code): on `c2Config` the emitted filter graph's
concatenation stage consumes `[v0_final]` and the final audio stage consumes
`[aout]`, yet no stage of the command defines either label (the per-scene
stages only define `[bg0]` and `[bg0_trimmed]`), so the generated
`filter_complex` references undefined stream labels. -/
theorem c2_undefined_stream_labels :
    filterComplexList c2Config =
      [ "[0:v]scale=1080:1920:force_original_aspect_ratio=increase,crop=1080:1920[bg0]",
        "[bg0]trim=duration=5,setpts=PTS-STARTPTS[bg0_trimmed]",
        "[v0_final]concat=n=1:v=1:a=0[vout]",
        "[aout]acopy[afinal]" ]
      ∧ ((filterComplexList c2Config).all fun s =>
          !(definesLabel s "v0_final" || definesLabel s "aout")) = true := by
  exact ⟨rfl, by decide⟩

/-! ## Timeline lemmas -/

theorem buildScenesAux_length (p : VideoCompositionParams)
    (l : List VideoScene) : ∀ (k : Nat) (t : ℚ),
    (buildScenesAux p l k t).length = l.length := by
  induction l with
  | nil => intro k t; rfl
  | cons s rest ih => intro k t; simp [buildScenesAux, ih]

theorem buildScenesAux_getElem? (p : VideoCompositionParams)
    (l : List VideoScene) : ∀ (k : Nat) (t : ℚ) (i : Nat),
    (buildScenesAux p l k t)[i]? = (l[i]?).map fun scene =>
      buildSceneConfig p scene (k + i)
        (t + (((l.take i).map fun s => s.duration).sum)) := by
  induction l with
  | nil => intro k t i; simp [buildScenesAux]
  | cons s rest ih =>
    intro k t i
    cases i with
    | zero => simp [buildScenesAux]
    | succ j =>
      have hk : k + 1 + j = k + (j + 1) := by omega
      simp only [buildScenesAux, List.getElem?_cons_succ, ih (k + 1) (t + s.duration) j,
        List.take_succ_cons, List.map_cons, List.sum_cons, hk, add_assoc]

theorem generateScenesAux_length (parts : List String)
    (l : List SceneTemplate) : ∀ (k : Nat),
    (generateScenesAux parts l k).length = l.length := by
  induction l with
  | nil => intro k; rfl
  | cons st rest ih => intro k; simp [generateScenesAux, ih]

theorem generateScenesAux_getElem? (parts : List String)
    (l : List SceneTemplate) : ∀ (k i : Nat),
    (generateScenesAux parts l k)[i]? = (l[i]?).map fun st =>
      sceneFromTemplate parts st (k + i) := by
  induction l with
  | nil => intro k i; simp [generateScenesAux]
  | cons st rest ih =>
    intro k i
    cases i with
    | zero => simp [generateScenesAux]
    | succ j =>
      have hk : k + 1 + j = k + (j + 1) := by omega
      simp only [generateScenesAux, List.getElem?_cons_succ, ih (k + 1) j, hk]

theorem generateScenes_getD (ts : List SceneTemplate) (script : String)
    (i : Nat) (h : i < ts.length) :
    (generateScenes ts script).getD i defaultVideoScene
      = sceneFromTemplate (splitScript script) (ts.get ⟨i, h⟩) i := by
  rw [List.getD_eq_getElem?_getD, generateScenes, generateScenesAux_getElem?,
    List.getElem?_eq_getElem h]
  simp [List.get_eq_getElem]

/-! ## C1 -/

/-- C1: the composition builder makes scenes contiguous: scene `i` starts at
the sum of the durations of scenes `0..i-1`, ends at `startTime + duration`,
keeps the input scene's duration, each scene starts exactly where the
previous one ends, and the last scene ends at the sum of all scene
durations. -/
theorem c1_contiguous_timeline (params : VideoCompositionParams) :
    ((buildCompositionConfig params).scenes.length = params.scenes.length)
  ∧ (∀ i, i < params.scenes.length →
      (((buildCompositionConfig params).scenes.getD i defaultSceneConfig).startTime
          = ((params.scenes.take i).map fun s => s.duration).sum)
      ∧ (((buildCompositionConfig params).scenes.getD i defaultSceneConfig).duration
          = (params.scenes.getD i defaultVideoScene).duration)
      ∧ (((buildCompositionConfig params).scenes.getD i defaultSceneConfig).endTime
          = ((buildCompositionConfig params).scenes.getD i defaultSceneConfig).startTime
            + ((buildCompositionConfig params).scenes.getD i defaultSceneConfig).duration))
  ∧ (∀ i, i + 1 < params.scenes.length →
      ((buildCompositionConfig params).scenes.getD (i + 1) defaultSceneConfig).startTime
        = ((buildCompositionConfig params).scenes.getD i defaultSceneConfig).endTime)
  ∧ (params.scenes.length ≠ 0 →
      ((buildCompositionConfig params).scenes.getD
          (params.scenes.length - 1) defaultSceneConfig).endTime
        = (params.scenes.map fun s => s.duration).sum) := by
  have hbase : ∀ i (hi : i < params.scenes.length),
      (buildCompositionConfig params).scenes.getD i defaultSceneConfig
        = buildSceneConfig params (params.scenes.get ⟨i, hi⟩) i
            (((params.scenes.take i).map fun s => s.duration).sum) := by
    intro i h
    show (buildScenesAux params params.scenes 0 0).getD i defaultSceneConfig = _
    rw [List.getD_eq_getElem?_getD, buildScenesAux_getElem?,
      List.getElem?_eq_getElem h]
    simp [List.get_eq_getElem]
  have hfields : ∀ i (h : i < params.scenes.length),
      (((buildCompositionConfig params).scenes.getD i defaultSceneConfig).startTime
          = ((params.scenes.take i).map fun s => s.duration).sum)
      ∧ (((buildCompositionConfig params).scenes.getD i defaultSceneConfig).duration
          = (params.scenes.get ⟨i, h⟩).duration)
      ∧ (((buildCompositionConfig params).scenes.getD i defaultSceneConfig).endTime
          = ((params.scenes.take i).map fun s => s.duration).sum
            + (params.scenes.get ⟨i, h⟩).duration) := by
    intro i h
    rw [hbase i h]
    exact ⟨rfl, rfl, rfl⟩
  have hsum_succ : ∀ i (hi : i < params.scenes.length),
      ((params.scenes.take (i + 1)).map fun s => s.duration).sum
        = ((params.scenes.take i).map fun s => s.duration).sum
          + (params.scenes.get ⟨i, hi⟩).duration := by
    intro i hi
    have hm : i < (params.scenes.map fun s => s.duration).length := by simpa using hi
    simp only [List.map_take]
    rw [List.sum_take_succ _ i hm]
    simp [List.get_eq_getElem]
  refine ⟨?_, ?_, ?_, ?_⟩
  · show (buildScenesAux params params.scenes 0 0).length = _
    exact buildScenesAux_length params params.scenes 0 0
  · intro i h
    obtain ⟨h1, h2, h3⟩ := hfields i h
    refine ⟨h1, ?_, by rw [h3, h1, h2]⟩
    rw [h2, List.getD_eq_getElem?_getD, List.getElem?_eq_getElem h]
    simp [List.get_eq_getElem]
  · intro i h
    obtain ⟨h1, _, _⟩ := hfields (i + 1) h
    obtain ⟨_, _, h3⟩ := hfields i (by omega)
    rw [h1, h3, hsum_succ i (by omega)]
  · intro h
    have hl : params.scenes.length - 1 < params.scenes.length := by omega
    obtain ⟨_, _, h3⟩ := hfields (params.scenes.length - 1) hl
    rw [h3, ← hsum_succ (params.scenes.length - 1) hl]
    have : params.scenes.length - 1 + 1 = params.scenes.length := by omega
    rw [this, List.take_length]

/-- Witness for C1 at three scenes of durations 5, 8, 4: scene 2 starts at
5 + 8 = 13. -/
theorem c1_contiguous_timeline_witness :
    (2 < c1Params.scenes.length)
  ∧ (((buildCompositionConfig c1Params).scenes.getD 2 defaultSceneConfig).startTime
      = ((c1Params.scenes.take 2).map fun s => s.duration).sum)
  ∧ ((c1Params.scenes.take 2).map fun s => s.duration).sum = 13 :=
  ⟨by decide, ((c1_contiguous_timeline c1Params).2.1 2 (by decide)).1,
    by norm_num [c1Params, mkVScene]⟩

/-! ## C4 -/

/-- C4 (refuted on the code): for the text `" a b c d e f g"` (seven
whitespace-separated words behind one leading space) the builder computes a
duration of 3.7s, because the JavaScript split produces a leading empty
field and the code counts 8 fields, whereas the claim's formula
`max(3.0, words/2.5 + 0.5)` with `words = 7` gives 3.3s. -/
theorem c4_word_count_counterexample :
    (((generateScenes [c4Template] c4Text).getD 0 defaultVideoScene).duration
        = 37 / 10)
  ∧ specWordCount c4Text = 7
  ∧ max 3 (((specWordCount c4Text : ℚ)) / (5 / 2) + 1 / 2) = 33 / 10
  ∧ (37 / 10 : ℚ) ≠ 33 / 10 := by
  have hw : specWordCount c4Text = 7 := by decide
  refine ⟨?_, hw, ?_, by norm_num⟩
  · have hlen : (jsSplitWs ((splitScript c4Text).getD 0 "")).length = 8 := by decide
    show calculateDuration ((splitScript c4Text).getD 0 "") = 37 / 10
    simp only [calculateDuration, hlen]
    norm_num [jsMax]
  · rw [hw, ← jsMax_eq_max]
    norm_num [jsMax]

/-- C4 amended: an explicit positive template duration is preserved; for a
scene with no explicit duration the computed duration is
`max(3.0, n/2.5 + 0.5)` where `n` is the field count of the JavaScript
whitespace split of the scene's text (equal to the word count except for
texts with leading/trailing whitespace, which add an empty field each, and
for the empty text, which counts one field). -/
theorem c4_duration_amended (ts : List SceneTemplate) (script : String)
    (i : Nat) (h : i < ts.length) :
    (∀ d : ℚ, (ts.get ⟨i, h⟩).duration = some d → 0 < d →
      ((generateScenes ts script).getD i defaultVideoScene).duration = d)
  ∧ ((ts.get ⟨i, h⟩).duration = none →
      ((generateScenes ts script).getD i defaultVideoScene).duration
        = max 3 (((jsSplitWs ((splitScript script).getD i "")).length : ℚ)
            / (5 / 2) + 1 / 2)) := by
  constructor
  · intro d hd hpos
    rw [generateScenes_getD ts script i h]
    simp only [sceneFromTemplate, hd]
    rw [if_neg (by exact ne_of_gt hpos)]
  · intro hd
    rw [generateScenes_getD ts script i h]
    simp only [sceneFromTemplate, hd, calculateDuration]
    rw [jsMax_eq_max, max_comm]

/-- Witness for C4: an explicit duration of 6 is preserved. -/
theorem c4_duration_amended_witness :
    ((generateScenes [mkTemplate "w" (some 6)] "hi").getD 0
        defaultVideoScene).duration = 6 :=
  (c4_duration_amended [mkTemplate "w" (some 6)] "hi" 0 (by decide)).1 6 rfl
    (by norm_num)

/-! ## C9 -/

/-- C9 (refuted on the code): two scene templates against a one-part script
produce two scenes with no error; the missing part silently defaults to the
empty string instead of raising `ShapeMismatch`. -/
theorem c9_no_shape_mismatch_error :
    generateScenes [c9TemplateA, c9TemplateB] "hello"
      = [ { id := "scene_0", text := "hello", duration := 4, type := "main",
            animation := "none", backgroundType := "gradient",
            captionStyle := "modern", musicTrack := none, effects := [] },
          { id := "scene_1", text := "", duration := 6, type := "main",
            animation := "none", backgroundType := "gradient",
            captionStyle := "modern", musicTrack := none, effects := [] } ]
  ∧ (splitScript "hello").length = 1
  ∧ ([c9TemplateA, c9TemplateB] : List SceneTemplate).length = 2 := by
  refine ⟨by decide, by decide, rfl⟩

/-- C9 amended: the builder performs no length validation; it always returns
one scene per template, and the scene text is the corresponding script part,
defaulting to the empty string when parts run out. -/
theorem c9_shape_amended (ts : List SceneTemplate) (script : String) :
    ((generateScenes ts script).length = ts.length)
  ∧ (∀ i, i < ts.length →
      ((generateScenes ts script).getD i defaultVideoScene).text
        = (splitScript script).getD i "") := by
  constructor
  · rw [generateScenes]
    exact generateScenesAux_length _ _ 0
  · intro i h
    rw [generateScenes_getD ts script i h]
    rfl

/-- Witness for C9: the second of two templates against a one-part script
gets the empty default text. -/
theorem c9_shape_amended_witness :
    ((generateScenes [c9TemplateA, c9TemplateB] "x").getD 1
        defaultVideoScene).text = (splitScript "x").getD 1 "" :=
  (c9_shape_amended [c9TemplateA, c9TemplateB] "x").2 1 (by decide)

/-! ## C7: caption escaping -/

theorem replaceChar_append (c : Char) (r : List Char) (l₁ l₂ : List Char) :
    replaceChar c r (l₁ ++ l₂) = replaceChar c r l₁ ++ replaceChar c r l₂ := by
  induction l₁ with
  | nil => rfl
  | cons x xs ih => simp [replaceChar, ih, List.append_assoc]

/-- The four sequential character replacements of `buildCaptionFilter` act
character-wise: each escaped character becomes its backslash-prefixed pair,
all other characters are untouched. -/
theorem escapeSteps_eq_bind (l : List Char) :
    replaceChar ']' ['\\', ']']
        (replaceChar '[' ['\\', '[']
          (replaceChar ':' ['\\', ':']
            (replaceChar quoteChar ['\\', quoteChar] l)))
      = l.flatMap escChar := by
  induction l with
  | nil => rfl
  | cons x xs ih =>
    have h1 : replaceChar quoteChar ['\\', quoteChar] (x :: xs)
        = (if x = quoteChar then ['\\', quoteChar] else [x])
            ++ replaceChar quoteChar ['\\', quoteChar] xs := rfl
    rw [h1, replaceChar_append, replaceChar_append, replaceChar_append, ih,
      List.flatMap_cons]
    congr 1
    by_cases hq : x = quoteChar
    · subst hq; decide
    · rw [if_neg hq]
      by_cases hc : x = ':'
      · subst hc; decide
      · by_cases hb : x = '['
        · subst hb; decide
        · by_cases hd : x = ']'
          · subst hd; decide
          · simp [replaceChar, escChar, isSpecialChar, hq, hc, hb, hd]

theorem escapeCaptionText_toList (s : String) :
    (escapeCaptionText s).toList = s.toList.flatMap escChar := by
  simpa [escapeCaptionText] using escapeSteps_eq_bind s.toList

theorem unescapeCaption_cons_ne (c : Char) (hb : ¬ c = '\\') (t : List Char) :
    unescapeCaption (c :: t) = c :: unescapeCaption t := by
  cases t with
  | nil => simp [unescapeCaption, hb]
  | cons d t2 => simp [unescapeCaption, hb]

theorem unescapeCaption_bs_special (d : Char) (hd : isSpecialChar d = true)
    (t2 : List Char) :
    unescapeCaption ('\\' :: d :: t2) = d :: unescapeCaption t2 := by
  simp [unescapeCaption, hd]

theorem unescapeCaption_bs_plain (d : Char) (hd : isSpecialChar d = false)
    (t2 : List Char) :
    unescapeCaption ('\\' :: d :: t2) = '\\' :: unescapeCaption (d :: t2) := by
  simp [unescapeCaption, hd]

/-- The caption escaping loses no information: the decoder recovers the
original text from the escaped form. -/
theorem unescape_escape (l : List Char) :
    unescapeCaption (l.flatMap escChar) = l := by
  induction l with
  | nil => rfl
  | cons c rest ih =>
    rw [List.flatMap_cons]
    by_cases hs : isSpecialChar c = true
    · rw [escChar, if_pos hs]
      show unescapeCaption ('\\' :: c :: rest.flatMap escChar) = c :: rest
      rw [unescapeCaption_bs_special c hs, ih]
    · rw [escChar, if_neg hs]
      by_cases hb : c = '\\'
      · subst hb
        cases rest with
        | nil => rfl
        | cons r rs =>
          have hEd : ∃ d t2, (r :: rs).flatMap escChar = d :: t2
              ∧ isSpecialChar d = false := by
            cases hr : isSpecialChar r with
            | true =>
              refine ⟨'\\', r :: rs.flatMap escChar, ?_, by decide⟩
              rw [List.flatMap_cons, escChar, if_pos hr]; rfl
            | false =>
              refine ⟨r, rs.flatMap escChar, ?_, hr⟩
              rw [List.flatMap_cons, escChar, if_neg (by simp [hr])]; rfl
          obtain ⟨d, t2, hE, hd⟩ := hEd
          show unescapeCaption ('\\' :: (r :: rs).flatMap escChar) = '\\' :: r :: rs
          rw [hE, unescapeCaption_bs_plain d hd, ← hE, ih]
      · show unescapeCaption (c :: rest.flatMap escChar) = c :: rest
        rw [unescapeCaption_cons_ne c hb, ih]

/-- C7: `buildCaptionFilter` embeds exactly the escaped caption text between
`text='` and `':` in the drawtext stage; the escaping prefixes each
occurrence of the apostrophe, colon and square-bracket characters with a
backslash and keeps all other characters, and the original text is
recoverable from the escaped form. -/
theorem c7_caption_escaping (capt : SceneCaptions) (i : Nat) :
    buildCaptionFilter capt i
        = "[v" ++ toString i ++ "_effects]drawtext=" ++ "text='"
            ++ escapeCaptionText capt.text ++ captionTail capt i
      ∧ (escapeCaptionText capt.text).toList = capt.text.toList.flatMap escChar
      ∧ unescapeCaption ((escapeCaptionText capt.text).toList)
          = capt.text.toList := by
  refine ⟨?_, escapeCaptionText_toList capt.text, ?_⟩
  · simp only [buildCaptionFilter, captionTail, String.append_assoc]
  · rw [escapeCaptionText_toList]; exact unescape_escape capt.text.toList

/-! ## C3: input ordering -/

/-- Positional characterisation of `List.filter`: if element `i` of `l`
satisfies `p`, it sits in `l.filter p` at the position given by the number
of earlier satisfying elements. -/
theorem filter_getElem?_countP {α : Type} (p : α → Bool) (l : List α) :
    ∀ (i : Nat) (h : i < l.length), p (l.get ⟨i, h⟩) = true →
      (l.filter p)[((l.take i).filter p).length]? = some (l.get ⟨i, h⟩) := by
  induction l with
  | nil => intro i h; exact absurd h (by simp)
  | cons a rest ih =>
    intro i h hp
    cases i with
    | zero =>
      simp only [List.get_eq_getElem, List.getElem_cons_zero] at hp
      simp [List.filter_cons, hp]
    | succ j =>
      have hj : j < rest.length := by simpa using h
      have hp2 : p (rest.get ⟨j, hj⟩) = true := by simpa using hp
      have := ih j hj hp2
      simp only [List.take_succ_cons, List.filter_cons]
      by_cases hpa : p a = true
      · simp only [hpa, if_true, List.length_cons]
        simpa using this
      · simp only [hpa, if_false, Bool.false_eq_true]
        simpa using this

/-- C3: the compiler is deterministic (a pure function of the
configuration), and input-stream indices are assigned in the fixed order
all scene backgrounds first (scene `i`'s background is input `i`), then all
voiceovers (scene `i`'s voiceover is input `N + #{voiced scenes before i}`),
then the music track (input `N + V`); each index points at exactly the `-i`
entry carrying that scene's media URL. -/
theorem c3_deterministic_input_order (config : CompositionConfig) :
    (generateFFmpegCommand config = generateFFmpegCommand config)
  ∧ (∀ i (hi : i < config.scenes.length),
      ((inputsList config)[backgroundInputIndexOf config i]?
          = some ("-i \"" ++ (config.scenes.get ⟨i, hi⟩).backgroundVideoUrl ++ "\""))
      ∧ (hasVoice (config.scenes.get ⟨i, hi⟩) = true →
          (inputsList config)[voiceoverInputIndexOf config i]?
            = some ("-i \"" ++ (config.scenes.get ⟨i, hi⟩).voiceoverAudioUrl ++ "\"")))
  ∧ (musicOn config = true →
      (inputsList config)[musicInputIndexOf config]?
        = some ("-i \"" ++ config.musicTrack.getD "" ++ "\"")) := by
  have hA : (config.scenes.map fun s => "-i \"" ++ s.backgroundVideoUrl ++ "\"").length
      = config.scenes.length := List.length_map _ _
  have hB : ((config.scenes.filter hasVoice).map
        fun s => "-i \"" ++ s.voiceoverAudioUrl ++ "\"").length
      = (config.scenes.filter hasVoice).length := List.length_map _ _
  refine ⟨rfl, ?_, ?_⟩
  · intro i hi
    constructor
    · simp only [inputsList, backgroundInputIndexOf]
      rw [List.getElem?_append_left (by rw [List.length_append, hA]; omega),
          List.getElem?_append_left (by rw [hA]; exact hi),
          List.getElem?_map, List.getElem?_eq_getElem hi]
      simp [List.get_eq_getElem]
    · intro hv
      have hBk : ((config.scenes.filter hasVoice).map
            fun s => "-i \"" ++ s.voiceoverAudioUrl ++ "\"")[((config.scenes.take i).filter hasVoice).length]?
          = some ("-i \"" ++ (config.scenes.get ⟨i, hi⟩).voiceoverAudioUrl ++ "\"") := by
        rw [List.getElem?_map, filter_getElem?_countP hasVoice config.scenes i hi hv]
        rfl
      have hkB : ((config.scenes.take i).filter hasVoice).length
          < (config.scenes.filter hasVoice).length := by
        by_contra hge
        push_neg at hge
        rw [List.getElem?_map, List.getElem?_eq_none hge] at hBk
        simp at hBk
      simp only [inputsList, voiceoverInputIndexOf]
      rw [List.getElem?_append_left (by rw [List.length_append, hA, hB]; omega),
          List.getElem?_append_right (by rw [hA]; omega)]
      simp only [hA]
      rw [Nat.add_sub_cancel_left]
      exact hBk
  · intro hm
    simp only [inputsList, musicInputIndexOf]
    rw [if_pos hm]
    rw [List.getElem?_append_right (by rw [List.length_append, hA, hB])]
    have hidx : config.scenes.length + (config.scenes.filter hasVoice).length
        - ((config.scenes.map fun s => "-i \"" ++ s.backgroundVideoUrl ++ "\"")
            ++ ((config.scenes.filter hasVoice).map
                fun s => "-i \"" ++ s.voiceoverAudioUrl ++ "\"")).length = 0 := by
      rw [List.length_append, hA, hB]; omega
    rw [hidx]
    rfl

/-- Witness for C3 on a two-scene config with a voiceover on scene 1 and a
music track: the voiceover index points at its `-i` entry and the music
index at the music `-i` entry. -/
theorem c3_deterministic_input_order_witness :
    ((inputsList c3Config)[voiceoverInputIndexOf c3Config 1]?
        = some ("-i \"" ++ (c3Config.scenes.get ⟨1, by decide⟩).voiceoverAudioUrl ++ "\""))
  ∧ ((inputsList c3Config)[musicInputIndexOf c3Config]?
        = some ("-i \"" ++ c3Config.musicTrack.getD "" ++ "\"")) :=
  ⟨((c3_deterministic_input_order c3Config).2.1 1 (by decide)).2 (by decide),
    (c3_deterministic_input_order c3Config).2.2 (by decide)⟩

/-! ## C8 -/

set_option maxRecDepth 8000

/-- C8 (refuted on the code): a scene with an empty (missing) background
reference produces no error at all — the compiler emits a complete command
whose input list contains `-i ""`, with full stage text, instead of failing
with a typed `MissingMedia` error. -/
theorem c8_no_missing_media_error :
    inputsList c8Config = ["-i \"\""]
  ∧ (filterComplexList c8Config).length = 4
  ∧ generateFFmpegCommand c8Config
      = "ffmpeg -i \"\" -filter_complex \"[0:v]scale=1080:1920:force_original_aspect_ratio=increase,crop=1080:1920[bg0];[bg0]trim=duration=5,setpts=PTS-STARTPTS[bg0_trimmed];[v0_final]concat=n=1:v=1:a=0[vout];[aout]acopy[afinal]\" -map [vout] -map [afinal] -c:v libx264 -preset medium -crf 23 -c:a aac -b:a 192k -movflags +faststart -pix_fmt yuv420p output.mp4" :=
  ⟨rfl, rfl, rfl⟩

/-- C8 amended: the compiler performs no media validation and has no
`MissingMedia` error: every scene contributes an `-i` input regardless of
its background URL, so a scene with an empty background reference puts a
literal `-i ""` into the command's input list. -/
theorem c8_missing_media_amended (c : CompositionConfig) (i : Nat)
    (h : i < c.scenes.length)
    (hbg : (c.scenes.get ⟨i, h⟩).backgroundVideoUrl = "") :
    "-i \"\"" ∈ inputsList c := by
  rw [inputsList]
  refine List.mem_append.mpr (Or.inl (List.mem_append.mpr (Or.inl ?_)))
  refine List.mem_map.mpr ⟨c.scenes.get ⟨i, h⟩, List.get_mem c.scenes i h, ?_⟩
  rw [hbg]
  rfl

/-- Witness for C8 at the one-scene config with a missing background. -/
theorem c8_missing_media_amended_witness :
    "-i \"\"" ∈ inputsList c8Config :=
  c8_missing_media_amended c8Config 0 (by decide) rfl

/-! ## C6 -/

/-- C6 (refuted on the code): with two scenes of which only the first
carries a voiceover, the video concatenation enumerates both scenes, but
the audio concatenation has only one input (`n=1`) and no silence stage is
emitted for the silent scene — its audio is simply absent. -/
theorem c6_no_silence_counterexample :
    c6Config.scenes.length = 2
  ∧ (audioStreams c6Config).length = 1
  ∧ filterComplexList c6Config =
      [ "[0:v]scale=1080:1920:force_original_aspect_ratio=increase,crop=1080:1920[bg0]",
        "[bg0]trim=duration=5,setpts=PTS-STARTPTS[bg0_trimmed]",
        "[2:a]atrim=duration=5,asetpts=PTS-STARTPTS[audio0]",
        "[1:v]scale=1080:1920:force_original_aspect_ratio=increase,crop=1080:1920[bg1]",
        "[bg1]trim=duration=4,setpts=PTS-STARTPTS[bg1_trimmed]",
        "[v0_final][v1_final]concat=n=2:v=1:a=0[vout]",
        "[audio0]concat=n=1:v=0:a=1[aout]",
        "[aout]acopy[afinal]" ] :=
  ⟨rfl, rfl, rfl⟩

/-- C6 amended: the video concatenation stage enumerates exactly one
`[v{i}_final]` label per scene with `n` equal to the scene count, while the
audio side contains exactly one stream per voiceover-carrying scene (scenes
without a voiceover contribute nothing, no silence is inserted) and the
audio concatenation, emitted only when that count is positive, declares
`n` equal to that count. -/
theorem c6_concat_amended (c : CompositionConfig) :
    (videoConcatStage c
      = String.join ((c.scenes.enum).map fun p => "[v" ++ toString p.1 ++ "_final]")
        ++ "concat=n=" ++ toString c.scenes.length ++ ":v=1:a=0[vout]")
  ∧ (((c.scenes.enum).map fun p => "[v" ++ toString p.1 ++ "_final]").length
      = c.scenes.length)
  ∧ ((audioStreams c).length = (c.scenes.filter hasVoice).length)
  ∧ (audioConcatStages c
      = if (c.scenes.filter hasVoice).length = 0 then []
        else [String.join (audioStreams c) ++ "concat=n="
                ++ toString ((c.scenes.filter hasVoice).length) ++ ":v=0:a=1[aout]"]) := by
  have hlen : (audioStreams c).length = (c.scenes.filter hasVoice).length := by
    rw [audioStreams, List.length_map, ← List.countP_eq_length_filter,
      ← List.countP_eq_length_filter]
    rw [show (fun p : Nat × SceneConfig => hasVoice p.2) = (hasVoice ∘ Prod.snd) from rfl,
      ← List.countP_map, List.enum_map_snd]
  refine ⟨rfl, by simp, hlen, ?_⟩
  rw [audioConcatStages, hlen]
  by_cases h0 : (c.scenes.filter hasVoice).length = 0
  · simp [h0]
  · have hpos : 0 < (c.scenes.filter hasVoice).length := Nat.pos_of_ne_zero h0
    rw [if_pos hpos, if_neg h0]

/-! ## C5 -/

/-- C5 (refuted on the code): two configurations identical except that one
requests a `"fade"` transition after the second scene compile to
byte-identical commands, and the command contains no `xfade` stage at all —
`generateFFmpegCommand` ignores transitions entirely. -/
theorem c5_transition_ignored_counterexample :
    (c5FadeConfig ≠ c5CutConfig)
  ∧ (generateFFmpegCommand c5FadeConfig = generateFFmpegCommand c5CutConfig)
  ∧ containsSeq "xfade".toList (generateFFmpegCommand c5FadeConfig).toList = false := by
  refine ⟨by decide, rfl, by decide⟩

@[simp] theorem stripT_duration (s : SceneConfig) : (stripT s).duration = s.duration := rfl

@[simp] theorem stripT_bg (s : SceneConfig) :
    (stripT s).backgroundVideoUrl = s.backgroundVideoUrl := rfl

@[simp] theorem stripT_vo (s : SceneConfig) :
    (stripT s).voiceoverAudioUrl = s.voiceoverAudioUrl := rfl

@[simp] theorem stripT_captions (s : SceneConfig) : (stripT s).captions = s.captions := rfl

@[simp] theorem stripT_effects (s : SceneConfig) : (stripT s).effects = s.effects := rfl

@[simp] theorem hasVoice_stripT (s : SceneConfig) : hasVoice (stripT s) = hasVoice s := rfl

@[simp] theorem scrub_scenes (c : CompositionConfig) :
    (scrubTransitions c).scenes = c.scenes.map stripT := rfl

@[simp] theorem scrub_resolution (c : CompositionConfig) :
    (scrubTransitions c).resolution = c.resolution := rfl

@[simp] theorem scrub_outputFormat (c : CompositionConfig) :
    (scrubTransitions c).outputFormat = c.outputFormat := rfl

@[simp] theorem scrub_musicTrack (c : CompositionConfig) :
    (scrubTransitions c).musicTrack = c.musicTrack := rfl

@[simp] theorem scrub_musicVolume (c : CompositionConfig) :
    (scrubTransitions c).musicVolume = c.musicVolume := rfl

@[simp] theorem scrub_globalEffects (c : CompositionConfig) :
    (scrubTransitions c).globalEffects = c.globalEffects := rfl

@[simp] theorem musicOn_scrub (c : CompositionConfig) :
    musicOn (scrubTransitions c) = musicOn c := rfl

theorem filter_hasVoice_scrub (l : List SceneConfig) :
    (l.map stripT).filter hasVoice = (l.filter hasVoice).map stripT := by
  rw [List.filter_map]
  have : hasVoice ∘ stripT = hasVoice := funext fun s => rfl
  rw [this]

theorem voiceoverInputIndexOf_scrub (c : CompositionConfig) (i : Nat) :
    voiceoverInputIndexOf (scrubTransitions c) i = voiceoverInputIndexOf c i := by
  simp only [voiceoverInputIndexOf, scrub_scenes, List.length_map, ← List.map_take,
    filter_hasVoice_scrub]

theorem musicInputIndexOf_scrub (c : CompositionConfig) :
    musicInputIndexOf (scrubTransitions c) = musicInputIndexOf c := by
  simp only [musicInputIndexOf, scrub_scenes, List.length_map, filter_hasVoice_scrub]

theorem inputsList_scrub (c : CompositionConfig) :
    inputsList (scrubTransitions c) = inputsList c := by
  simp [inputsList, filter_hasVoice_scrub, List.map_map, Function.comp_def]

theorem audioStreams_scrub (c : CompositionConfig) :
    audioStreams (scrubTransitions c) = audioStreams c := by
  simp [audioStreams, List.enum_map, List.filter_map, List.map_map, Function.comp_def,
    Prod.map]

theorem sceneStages_scrub (c : CompositionConfig) (i : Nat) (s : SceneConfig) :
    sceneStages (scrubTransitions c) i (stripT s) = sceneStages c i s := by
  simp only [sceneStages, scrub_resolution, stripT_duration, stripT_captions,
    stripT_effects, hasVoice_stripT, voiceoverInputIndexOf_scrub, backgroundInputIndexOf]

theorem videoConcatStage_scrub (c : CompositionConfig) :
    videoConcatStage (scrubTransitions c) = videoConcatStage c := by
  simp [videoConcatStage, List.enum_map, List.map_map, Function.comp_def, Prod.map]

theorem audioConcatStages_scrub (c : CompositionConfig) :
    audioConcatStages (scrubTransitions c) = audioConcatStages c := by
  simp only [audioConcatStages, audioStreams_scrub]

theorem audioFinalStage_scrub (c : CompositionConfig) :
    audioFinalStage (scrubTransitions c) = audioFinalStage c := by
  simp only [audioFinalStage, musicOn_scrub, musicInputIndexOf_scrub, scrub_musicVolume,
    scrub_musicTrack]

theorem filterComplexList_scrub (c : CompositionConfig) :
    filterComplexList (scrubTransitions c) = filterComplexList c := by
  simp only [filterComplexList, scrub_scenes, List.enum_map, List.map_map,
    videoConcatStage_scrub, audioConcatStages_scrub, audioFinalStage_scrub,
    scrub_globalEffects, globalEffectsStages]
  have hh : List.map ((fun p : Nat × SceneConfig =>
        sceneStages (scrubTransitions c) p.1 p.2) ∘ Prod.map id stripT) c.scenes.enum
      = List.map (fun p : Nat × SceneConfig => sceneStages c p.1 p.2) c.scenes.enum := by
    apply List.map_congr_left
    intro p _
    simp only [Function.comp_def, Prod.map]
    exact sceneStages_scrub c p.1 p.2
  rw [hh]

/-- C5 amended: the compiler never applies transitions — replacing every
scene's transition by the no-op `"cut"` leaves the generated command
byte-identical — and the (never invoked) transition helper anchors the
`xfade` at an offset equal to the transition's own duration, not at the
preceding scene's duration minus the transition duration. -/
theorem c5_transitions_amended (c : CompositionConfig) (i j : Nat) (d : ℚ) :
    (generateFFmpegCommand (scrubTransitions c) = generateFFmpegCommand c)
  ∧ (buildTransitionFilter "fade" i j d
      = "[v" ++ toString i ++ "][v" ++ toString j
          ++ "]xfade=transition=fade:duration=" ++ qToStr d ++ ":offset="
          ++ qToStr d ++ "[v" ++ toString j ++ "_trans]") := by
  constructor
  · simp only [generateFFmpegCommand, inputsList_scrub, filterComplexList_scrub,
      scrub_outputFormat]
  · have hf : transitionFragment "fade" d
        = "xfade=transition=fade:duration=" ++ qToStr d ++ ":offset=" ++ qToStr d := rfl
    simp only [buildTransitionFilter, hf, String.append_assoc]
    rw [← String.append_assoc "]" "xfade=transition=fade:duration=",
      show ("]" : String) ++ "xfade=transition=fade:duration="
        = "]xfade=transition=fade:duration=" from rfl]

end ViralEngine
